import Mathlib

/-!
A shallow embedding of `brownie/network/rpc/__init__.py` (the `Rpc` process
supervisor) and proofs about its lifecycle operations.

Modelling conventions:

* The OS world (process liveness, web3 connectivity, socket tables, DNS) is
  passed in explicitly.  Each operation receives the answer the OS would give
  to the `is_running()` query it makes on entry (`runningNow`); the launch
  poll loop receives per-iteration answers through a `LaunchWorld`.
* Side effects on collaborators (the `chain` object, `backend.on_connection`,
  signals sent to processes, stream closes) are recorded as an `Event` trace.
* Python exceptions are modelled as an `Option RpcErr` in the result together
  with the state the object was left in when the exception propagated, since
  `Rpc` mutates `self` in place before raising.
* A dead process never reports `is_running() = True` again (psutil identifies
  a process by pid plus creation time), so two liveness queries made with no
  intervening wait are modelled as returning the same answer.
-/

set_option maxHeartbeats 1000000

namespace BrownieRpc

/-- The two backend adapter modules imported by the source:
`from . import ganache, geth`. -/
inductive Backend where
  | ganache
  | geth
  deriving DecidableEq

/-- A child process as enumerated by `self.process.children()` at kill time.
`gone` records that this child's individual `kill()` raises
`psutil.NoSuchProcess` (the child vanished between enumeration and kill). -/
structure ChildProc where
  pid : Nat
  gone : Bool
  deriving DecidableEq

/-- The handle stored in `self.process`: a `psutil.Popen` for launched
processes (`popen = true`) or a plain `psutil.Process` for attached ones.
Liveness is not a field: it is a property of the outside world, supplied to
each operation as the answer the OS gives to `is_running()` at that moment.
`hasStdout`/`hasStderr` model `getattr(self.process, "stdout"/"stderr", None)
is not None` (captured output streams, present only on Popen handles). -/
structure ProcHandle where
  pid : Nat
  popen : Bool
  parentIsSelf : Bool
  children : List ChildProc
  hasStdout : Bool
  hasStderr : Bool
  deriving DecidableEq

/-- The mutable state of the `Rpc` singleton: `self.process` and
`self.backend`. -/
structure RpcState where
  process : Option ProcHandle
  backend : Backend
  deriving DecidableEq

/-- `Rpc.__init__`: `self.process = None`, `self.backend = ganache`. -/
def initState : RpcState := ⟨none, Backend.ganache⟩

/-- Observable side effects on collaborators, in program order. -/
inductive Event where
  | chainConnected
  | chainDisconnected
  | onConnection (b : Backend)
  | childKilled (pid : Nat)
  | mainKilled (pid : Nat)
  | mainWaited (pid : Nat)
  | stdoutClosed
  | stderrClosed
  deriving DecidableEq

/-- The exceptions the module raises.  `rpcProcessError` is
`RPCProcessError(cmd, uri)` and `rpcConnectionError` is
`RPCConnectionError(cmd, self.process, uri)`; the latter's second argument is
whatever `self.process` holds at raise time, hence an `Option`. -/
inductive RpcErr where
  | alreadyActive
  | notActive
  | noPortGiven
  | processLookupError
  | rpcProcessError (cmd : String) (uri : Option String)
  | rpcConnectionError (cmd : String) (procInfo : Option ProcHandle) (uri : Option String)
  deriving DecidableEq

/-- Result of one operation: the exception raised (if any), the state the
object was left in, and the emitted side-effect trace. -/
structure StepResult where
  err : Option RpcErr
  state : RpcState
  events : List Event
  deriving DecidableEq

/-- Number of occurrences of an event in a trace. -/
def countEvt : List Event → Event → Nat
  | [], _ => 0
  | x :: xs, e => (if x = e then 1 else 0) + countEvt xs e

/-- `Rpc.is_active`: `self.process` truthy and `self.process.is_running()`.
The `poll()` call made on Popen handles only refreshes the cached return code
and has no observable effect in this model.  `runningNow` is the answer the
OS gives to the `is_running()` query at this moment. -/
def is_active (st : RpcState) (runningNow : Bool) : Bool :=
  match st.process with
  | none => false
  | some _ => runningNow

/-- The `child.kill()` loop inside `Rpc.kill`: every enumerated child is sent
SIGKILL; a child whose kill raises `psutil.NoSuchProcess` is skipped
(`except psutil.NoSuchProcess: pass`). -/
def killChildren (cs : List ChildProc) : List Event :=
  cs.filterMap (fun c => if c.gone then none else some (Event.childKilled c.pid))

/-- The full effect trace of an actual teardown in `Rpc.kill`: children
killed first, then `self.process.kill()`, `self.process.wait()`, and
`chain._network_disconnected()`. -/
def killEvents (p : ProcHandle) : List Event :=
  killChildren p.children ++ [Event.mainKilled p.pid, Event.mainWaited p.pid, Event.chainDisconnected]

/-- `Rpc.kill(exc)`: if not active, raise `SystemError("RPC is not active.")`
when `exc` else return; if active, kill children (tolerating vanished ones),
kill and wait the main process, clear `self.process`, notify the chain. -/
def kill (st : RpcState) (runningNow : Bool) (exc : Bool) : StepResult :=
  match st.process with
  | none =>
    if exc then ⟨some RpcErr.notActive, st, []⟩ else ⟨none, st, []⟩
  | some p =>
    if runningNow then
      ⟨none, { st with process := none }, killEvents p⟩
    else if exc then ⟨some RpcErr.notActive, st, []⟩
    else ⟨none, st, []⟩

/-- The `LAUNCH_BACKENDS` dict, in insertion (iteration) order. -/
def LAUNCH_BACKENDS : List (String × Backend) :=
  [("ganache", Backend.ganache), ("ethnode", Backend.geth), ("geth", Backend.geth)]

/-- The `ATTACH_BACKENDS` dict, in insertion (iteration) order. -/
def ATTACH_BACKENDS : List (String × Backend) :=
  [("ethereumjs testrpc", Backend.ganache), ("geth", Backend.geth)]

/-- `s.lower()`, as the character sequence of the string.  (Python's
`str.lower` agrees with per-character lowercasing on the command strings and
backend keys involved here.) -/
def lowered (s : String) : List Char := s.data.map Char.toLower

/-- `s.lower().startswith(key)`. -/
def startsLower (s key : String) : Bool := key.data.isPrefixOf (lowered s)

/-- The selector loop in `Rpc.launch`: first key of `LAUNCH_BACKENDS` that
`cmd.lower()` starts with wins; no match leaves `self.backend` unchanged. -/
def selectLaunchBackend (cur : Backend) (cmd : String) : Backend :=
  match LAUNCH_BACKENDS.find? (fun kv => startsLower cmd kv.1) with
  | some kv => kv.2
  | none => cur

/-- The selector loop in `Rpc.attach`: first key of `ATTACH_BACKENDS` that
`web3.clientVersion.lower()` starts with wins; no match leaves
`self.backend` unchanged. -/
def selectAttachBackend (cur : Backend) (ver : String) : Backend :=
  match ATTACH_BACKENDS.find? (fun kv => startsLower ver kv.1) with
  | some kv => kv.2
  | none => cur

/-- The outside world as observed by one `Rpc.launch` call.
`spawned` is the handle returned by `self.backend.launch(cmd, **kwargs)`
(the adapters are external modules; per their contract they return a handle
immediately).  `connectedAt i` is the answer of `web3.isConnected()` on poll
iteration `i`; `runningAt i` is the answer of the `is_running()` query made
on iteration `i` (after the 100 ms sleep); `runningAt 100` is the extra query
the final `kill` makes after the loop exhausts.  `runningAfter` is the answer
an `is_running()` query made immediately after `launch` returns would get. -/
structure LaunchWorld where
  spawned : ProcHandle
  provider : Option String
  connectedAt : Nat → Bool
  runningAt : Nat → Bool
  runningAfter : Bool

/-- How a run of the `for i in range(100)` poll loop ends, as a function of
the world alone: connected on some iteration, observed dead on some
iteration, or exhausted with the process alive/dead at the final liveness
query made by the trailing `kill`. -/
inductive LoopOutcome where
  | connected
  | died
  | timedOutAlive
  | timedOutDead
  deriving DecidableEq

/-- Classify the poll loop run starting at iteration `i` with `fuel`
iterations left. -/
def loopClassify (w : LaunchWorld) : Nat → Nat → LoopOutcome
  | i, 0 => if w.runningAt i then LoopOutcome.timedOutAlive else LoopOutcome.timedOutDead
  | i, fuel+1 =>
    if w.connectedAt i then LoopOutcome.connected
    else if w.runningAt i then loopClassify w (i+1) fuel
    else LoopOutcome.died

/-- The `for i in range(100)` body of `Rpc.launch`, from iteration `i` with
`fuel` iterations remaining.  On success: `chain._network_connected()` then
`self.backend.on_connection()`.  If the process is observed dead:
`self.kill(False)` — whose own `is_active` re-query sees the same dead
process (death is absorbing), so it is passed `false` — then
`RPCProcessError(cmd, uri)`.  On exhaustion: `self.kill(False)` (which makes
one more liveness query) and then `RPCConnectionError(cmd, self.process,
uri)` where `self.process` is read after the kill. -/
def launchLoop (cmd : String) (uri : Option String) (w : LaunchWorld) (st : RpcState) :
    Nat → Nat → StepResult
  | i, 0 =>
    let r := kill st (w.runningAt i) false
    ⟨some (RpcErr.rpcConnectionError cmd r.state.process uri), r.state, r.events⟩
  | i, fuel+1 =>
    if w.connectedAt i then
      ⟨none, st, [Event.chainConnected, Event.onConnection st.backend]⟩
    else if w.runningAt i then launchLoop cmd uri w st (i+1) fuel
    else
      let r := kill st false false
      ⟨some (RpcErr.rpcProcessError cmd uri), r.state, r.events⟩

/-- `Rpc.launch(cmd, **kwargs)`: guard against an active session, select the
backend from `cmd`, store the spawned handle, then either return in the
degenerate no-provider mode (notifying the chain of disconnection) or run
the connectivity poll loop. -/
def launch (st : RpcState) (runningNow : Bool) (cmd : String) (w : LaunchWorld) : StepResult :=
  if is_active st runningNow then ⟨some RpcErr.alreadyActive, st, []⟩
  else
    let bk := selectLaunchBackend st.backend cmd
    let st1 : RpcState := ⟨some w.spawned, bk⟩
    match w.provider with
    | none => ⟨none, st1, [Event.chainDisconnected]⟩
    | some uri => launchLoop cmd (some uri) w st1 0 100

/-- The address argument of `Rpc.attach`: a URI string (modelled after
`urlparse` by its `hostname` and optional `port` components) or an explicit
(host, port) pair. -/
inductive Laddr where
  | uriAddr (hostname : String) (port : Option Nat)
  | pairAddr (host : String) (port : Nat)

/-- Python truthiness of `o.port` in `if not o.port`: `None` and `0` are
falsy. -/
def portTruthy : Option Nat → Bool
  | none => false
  | some p => decide (p ≠ 0)

/-- The normalisation prelude of `Rpc.attach`: a URI is reduced to
`(o.hostname, o.port)`, raising `ValueError("No RPC port given")` (modelled
as `none`) when the port is falsy; a pair is taken as is. -/
def normalizeLaddr : Laddr → Option (String × Nat)
  | Laddr.uriAddr host port => if portTruthy port then some (host, port.getD 0) else none
  | Laddr.pairAddr host port => some (host, port)

/-- A socket address `(ip, port)` as compared by the finder. -/
structure Addr where
  host : String
  port : Nat
  deriving DecidableEq

/-- What `proc.connections()` does for one process: either the list of local
addresses of its open sockets, or one of the three psutil exceptions the
source catches. -/
inductive InspectResult where
  | conns (laddrs : List Addr)
  | accessDenied
  | zombie
  | noSuch
  deriving DecidableEq

/-- One entry of `psutil.process_iter()`. -/
structure InspectableProc where
  pid : Nat
  inspect : InspectResult
  deriving DecidableEq

/-- `_check_proc_connections`: `laddr in [i.laddr for i in
proc.connections()]`, with `AccessDenied`, `ZombieProcess` and
`NoSuchProcess` all swallowed as `False`. -/
def _check_proc_connections (p : InspectableProc) (laddr : Addr) : Bool :=
  match p.inspect with
  | InspectResult.conns laddrs => decide (laddr ∈ laddrs)
  | InspectResult.accessDenied => false
  | InspectResult.zombie => false
  | InspectResult.noSuch => false

/-- One entry of `psutil.net_connections(kind="tcp")`: owning pid (None when
unknown), local address, and remote address (absent for listening
sockets). -/
structure NetConn where
  pid : Option Nat
  laddr : Addr
  raddr : Option Addr
  deriving DecidableEq

/-- `_check_net_connections`: skip connections without an owning pid, then
match on local address or remote address. -/
def _check_net_connections (c : NetConn) (laddr : Addr) : Bool :=
  match c.pid with
  | none => false
  | some _ =>
    if c.laddr = laddr then true
    else if c.raddr = some laddr then true
    else false

/-- The OS socket tables consulted by the finder. -/
structure FinderWorld where
  procIter : List InspectableProc
  netConns : List NetConn

/-- `_find_rpc_process_pid`: first process whose connections hold the target
as a local address; failing that, first system-wide TCP connection matching
on local or remote address; failing that, `ProcessLookupError`. -/
def _find_rpc_process_pid (w : FinderWorld) (laddr : Addr) : Except RpcErr Nat :=
  match w.procIter.find? (fun p => _check_proc_connections p laddr) with
  | some p => Except.ok p.pid
  | none =>
    match w.netConns.find? (fun c => _check_net_connections c laddr) with
    | some c => Except.ok (c.pid.getD 0)
    | none => Except.error RpcErr.processLookupError

/-- The outside world as observed by one `Rpc.attach` call:
`socket.gethostbyname`, the socket tables, `web3.clientVersion`, and the
`psutil.Process(pid)` handle construction. -/
structure AttachWorld where
  resolveHost : String → String
  finder : FinderWorld
  clientVersion : String
  attachedHandle : Nat → ProcHandle

/-- `Rpc.attach(laddr)`: guard against an active session, normalise the
address, resolve the host, locate the owning pid, store the handle, select
the backend from the reported client version, notify chain and adapter. -/
def attach (st : RpcState) (runningNow : Bool) (laddr : Laddr) (w : AttachWorld) : StepResult :=
  if is_active st runningNow then ⟨some RpcErr.alreadyActive, st, []⟩
  else
    match normalizeLaddr laddr with
    | none => ⟨some RpcErr.noPortGiven, st, []⟩
    | some hp =>
      match _find_rpc_process_pid w.finder ⟨w.resolveHost hp.1, hp.2⟩ with
      | Except.error e => ⟨some e, st, []⟩
      | Except.ok pid =>
        let bk := selectAttachBackend st.backend w.clientVersion
        ⟨none, ⟨some (w.attachedHandle pid), bk⟩, [Event.chainConnected, Event.onConnection bk]⟩

/-- `Rpc._at_exit`: return unless active; if the process is our own child,
close the captured output streams (when present) and `self.kill(False)`. -/
def _at_exit (st : RpcState) (runningNow : Bool) : StepResult :=
  match st.process with
  | none => ⟨none, st, []⟩
  | some p =>
    if runningNow then
      if p.parentIsSelf then
        let closes := (if p.hasStdout then [Event.stdoutClosed] else []) ++
          (if p.hasStderr then [Event.stderrClosed] else [])
        let r := kill st runningNow false
        ⟨r.err, r.state, closes ++ r.events⟩
      else ⟨none, st, []⟩
    else ⟨none, st, []⟩

/-- One supervisor operation together with the world it observes. -/
inductive Op where
  | launchOp (rn : Bool) (cmd : String) (w : LaunchWorld)
  | attachOp (rn : Bool) (laddr : Laddr) (w : AttachWorld)
  | killOp (rn : Bool) (exc : Bool)

/-- Dispatch one operation. -/
def step (st : RpcState) : Op → StepResult
  | Op.launchOp rn cmd w => launch st rn cmd w
  | Op.attachOp rn laddr w => attach st rn laddr w
  | Op.killOp rn exc => kill st rn exc

/-- Run a sequence of operations, concatenating the emitted traces. -/
def runOps : RpcState → List Op → RpcState × List Event
  | st, [] => (st, [])
  | st, op :: ops =>
    let r := step st op
    let rest := runOps r.state ops
    (rest.1, r.events ++ rest.2)

/-- Whether the poll loop of a `launch` against this world succeeds before
the timeout (no poll runs at all when no provider is configured). -/
def pollSucceeded (w : LaunchWorld) : Bool :=
  match w.provider with
  | none => false
  | some _ =>
    match loopClassify w 0 100 with
    | LoopOutcome.connected => true
    | _ => false

/-- An operation that performs a successful connect: a launch whose poll
succeeds, or a successful attach. -/
def connects (st : RpcState) : Op → Bool
  | Op.launchOp rn _ w =>
    !(is_active st rn) && w.provider.isSome &&
      (match loopClassify w 0 100 with
       | LoopOutcome.connected => true
       | _ => false)
  | Op.attachOp rn laddr w =>
    !(is_active st rn) &&
      (match normalizeLaddr laddr with
       | none => false
       | some hp =>
         match _find_rpc_process_pid w.finder ⟨w.resolveHost hp.1, hp.2⟩ with
         | Except.ok _ => true
         | Except.error _ => false)
  | Op.killOp _ _ => false

/-- An operation that performs a disconnect: a kill that actually tears down
an active session (including the kill `launch` performs internally when the
poll times out with the process still alive), or a launch in the degenerate
no-provider mode. -/
def disconnects (st : RpcState) : Op → Bool
  | Op.launchOp rn _ w =>
    !(is_active st rn) &&
      (match w.provider with
       | none => true
       | some _ =>
         match loopClassify w 0 100 with
         | LoopOutcome.timedOutAlive => true
         | _ => false)
  | Op.attachOp _ _ _ => false
  | Op.killOp rn _ => is_active st rn

/-- Expected number of connect notifications over a run. -/
def expectedConnects : RpcState → List Op → Nat
  | _, [] => 0
  | st, op :: ops =>
    (if connects st op then 1 else 0) + expectedConnects (step st op).state ops

/-- Expected number of disconnect notifications over a run. -/
def expectedDisconnects : RpcState → List Op → Nat
  | _, [] => 0
  | st, op :: ops =>
    (if disconnects st op then 1 else 0) + expectedDisconnects (step st op).state ops

/-- A process whose sockets cannot be inspected: permission denied, zombie,
or already exited. -/
def specUninspectable (p : InspectableProc) : Bool :=
  match p.inspect with
  | InspectResult.conns _ => false
  | _ => true

/-- Fixture: a live child, a vanished child, another live child. -/
def child3 : ChildProc := ⟨3, false⟩

/-- Fixture: a child that raises `NoSuchProcess` when killed. -/
def child4gone : ChildProc := ⟨4, true⟩

/-- Fixture: a second live child, after the vanished one. -/
def child5 : ChildProc := ⟨5, false⟩

/-- Fixture: a launched (Popen) handle owned by this program, with captured
streams and three children. -/
def proc7 : ProcHandle := ⟨7, true, true, [child3, child4gone, child5], true, true⟩

/-- Fixture: a session holding `proc7`. -/
def activeState : RpcState := ⟨some proc7, Backend.ganache⟩

/-- Fixture: no web3 provider configured; the process runs fine. -/
def wNoProvider : LaunchWorld := ⟨proc7, none, fun _ => false, fun _ => true, true⟩

/-- Fixture: provider configured, connectivity there from the first poll. -/
def wConnectNow : LaunchWorld :=
  ⟨proc7, some "http://127.0.0.1:8545", fun _ => true, fun _ => true, true⟩

/-- Fixture: provider configured, the process is dead from the first poll. -/
def wDeadStart : LaunchWorld :=
  ⟨proc7, some "http://127.0.0.1:8545", fun _ => false, fun _ => false, false⟩

/-- Fixture: provider configured, the process stays alive but never exposes
a working endpoint. -/
def wNeverConnect : LaunchWorld :=
  ⟨proc7, some "http://127.0.0.1:8545", fun _ => false, fun _ => true, true⟩

/-- Fixture: an attach world with empty socket tables. -/
def emptyAttachWorld : AttachWorld := ⟨fun h => h, ⟨[], []⟩, "geth-v1", fun _ => proc7⟩

/-- Fixture: a process that cannot be inspected. -/
def deniedProc : InspectableProc := ⟨11, InspectResult.accessDenied⟩

/-- Fixture: a system-wide TCP connection owned by pid 42, local address
matching the usual target. -/
def connA : NetConn := ⟨some 42, ⟨"127.0.0.1", 8545⟩, none⟩

/-- Fixture: one uninspectable process, one matching connection. -/
def finder1 : FinderWorld := ⟨[deniedProc], [connA]⟩

/-- Counting distributes over trace concatenation. -/
theorem countEvt_append (a b : List Event) (e : Event) :
    countEvt (a ++ b) e = countEvt a e + countEvt b e := by
  induction a with
  | nil => simp [countEvt]
  | cons x xs ih => simp [countEvt, ih, Nat.add_assoc]

/-- An absent event has count zero. -/
theorem countEvt_eq_zero_of_not_mem {l : List Event} {e : Event} (h : e ∉ l) :
    countEvt l e = 0 := by
  induction l with
  | nil => rfl
  | cons x xs ih =>
    have hx : ¬ x = e := fun hxe => h (hxe ▸ List.mem_cons_self x xs)
    simp [countEvt, hx, ih (fun he => h (List.mem_cons_of_mem x he))]

/-- Every event emitted by the child-kill loop is a `childKilled`. -/
theorem mem_killChildren {cs : List ChildProc} {x : Event} (hx : x ∈ killChildren cs) :
    ∃ pid, x = Event.childKilled pid := by
  unfold killChildren at hx
  obtain ⟨c, _, he⟩ := List.mem_filterMap.mp hx
  by_cases hg : c.gone
  · simp [hg] at he
  · simp [hg] at he
    exact ⟨c.pid, he.symm⟩

/-- The child-kill loop kills exactly the children still present, in order. -/
theorem killChildren_eq_filter (cs : List ChildProc) :
    killChildren cs = (cs.filter (fun c => !c.gone)).map (fun c => Event.childKilled c.pid) := by
  induction cs with
  | nil => rfl
  | cons c t ih =>
    by_cases hg : c.gone <;>
      simp [killChildren, List.filterMap_cons, List.filter_cons, hg] <;>
      simpa [killChildren] using ih

/-- The child-kill loop never emits chain or stream events. -/
theorem countEvt_killChildren (cs : List ChildProc) (e : Event)
    (h : ∀ pid, e ≠ Event.childKilled pid) : countEvt (killChildren cs) e = 0 := by
  refine countEvt_eq_zero_of_not_mem (fun hmem => ?_)
  obtain ⟨pid, hp⟩ := mem_killChildren hmem
  exact h pid hp

/-- A full teardown emits no connect notification. -/
theorem countEvt_killEvents_connected (p : ProcHandle) :
    countEvt (killEvents p) Event.chainConnected = 0 := by
  simp [killEvents, countEvt_append, countEvt,
    countEvt_killChildren p.children Event.chainConnected (fun _ h => by cases h)]

/-- A full teardown emits exactly one disconnect notification. -/
theorem countEvt_killEvents_disconnected (p : ProcHandle) :
    countEvt (killEvents p) Event.chainDisconnected = 1 := by
  simp [killEvents, countEvt_append, countEvt,
    countEvt_killChildren p.children Event.chainDisconnected (fun _ h => by cases h)]

/-- A full teardown closes no stream handle. -/
theorem countEvt_killEvents_stdout (p : ProcHandle) :
    countEvt (killEvents p) Event.stdoutClosed = 0 := by
  simp [killEvents, countEvt_append, countEvt,
    countEvt_killChildren p.children Event.stdoutClosed (fun _ h => by cases h)]

/-- A full teardown closes no stream handle. -/
theorem countEvt_killEvents_stderr (p : ProcHandle) :
    countEvt (killEvents p) Event.stderrClosed = 0 := by
  simp [killEvents, countEvt_append, countEvt,
    countEvt_killChildren p.children Event.stderrClosed (fun _ h => by cases h)]

/-- Complete characterisation of the poll loop: its result is determined by
the classification of the world, given that a handle is stored. -/
theorem launchLoop_spec (cmd : String) (uri : Option String) (w : LaunchWorld)
    (st : RpcState) (p : ProcHandle) (hp : st.process = some p) :
    ∀ fuel i, launchLoop cmd uri w st i fuel =
      match loopClassify w i fuel with
      | LoopOutcome.connected => ⟨none, st, [Event.chainConnected, Event.onConnection st.backend]⟩
      | LoopOutcome.died => ⟨some (RpcErr.rpcProcessError cmd uri), st, []⟩
      | LoopOutcome.timedOutAlive =>
        ⟨some (RpcErr.rpcConnectionError cmd none uri), { st with process := none }, killEvents p⟩
      | LoopOutcome.timedOutDead =>
        ⟨some (RpcErr.rpcConnectionError cmd (some p) uri), st, []⟩ := by
  intro fuel
  induction fuel with
  | zero =>
    intro i
    by_cases hr : w.runningAt i <;> simp [launchLoop, loopClassify, kill, hp, hr]
  | succ n ih =>
    intro i
    by_cases hc : w.connectedAt i
    · simp [launchLoop, loopClassify, hc]
    · by_cases hr : w.runningAt i
      · simp [launchLoop, loopClassify, hc, hr, ih (i+1)]
      · simp [launchLoop, loopClassify, kill, hp, hc, hr]

/-- `launch` in the degenerate no-provider mode: spawn, store the handle,
notify the chain of disconnection, return without error. -/
theorem launch_noProvider_spec (st : RpcState) (rn : Bool) (cmd : String) (w : LaunchWorld)
    (h : is_active st rn = false) (hprov : w.provider = none) :
    launch st rn cmd w =
      ⟨none, ⟨some w.spawned, selectLaunchBackend st.backend cmd⟩, [Event.chainDisconnected]⟩ := by
  simp [launch, h, hprov]

/-- `launch` with a provider configured, by loop outcome. -/
theorem launch_provider_spec (st : RpcState) (rn : Bool) (cmd : String) (w : LaunchWorld)
    (uri : String) (h : is_active st rn = false) (hprov : w.provider = some uri) :
    launch st rn cmd w =
      match loopClassify w 0 100 with
      | LoopOutcome.connected =>
        ⟨none, ⟨some w.spawned, selectLaunchBackend st.backend cmd⟩,
          [Event.chainConnected, Event.onConnection (selectLaunchBackend st.backend cmd)]⟩
      | LoopOutcome.died =>
        ⟨some (RpcErr.rpcProcessError cmd (some uri)),
          ⟨some w.spawned, selectLaunchBackend st.backend cmd⟩, []⟩
      | LoopOutcome.timedOutAlive =>
        ⟨some (RpcErr.rpcConnectionError cmd none (some uri)),
          ⟨none, selectLaunchBackend st.backend cmd⟩, killEvents w.spawned⟩
      | LoopOutcome.timedOutDead =>
        ⟨some (RpcErr.rpcConnectionError cmd (some w.spawned) (some uri)),
          ⟨some w.spawned, selectLaunchBackend st.backend cmd⟩, []⟩ := by
  have hl := launchLoop_spec cmd (some uri) w
    ⟨some w.spawned, selectLaunchBackend st.backend cmd⟩ w.spawned rfl 100 0
  unfold launch
  rw [h, hprov]
  show launchLoop cmd (some uri) w ⟨some w.spawned, selectLaunchBackend st.backend cmd⟩ 0 100 = _
  rw [hl]

/-- A `died` classification exhibits an iteration observing the process
dead. -/
theorem loopClassify_died (w : LaunchWorld) :
    ∀ fuel i, loopClassify w i fuel = LoopOutcome.died →
      ∃ j, i ≤ j ∧ j < i + fuel ∧ w.runningAt j = false := by
  intro fuel
  induction fuel with
  | zero =>
    intro i h
    by_cases hr : w.runningAt i <;> simp [loopClassify, hr] at h
  | succ n ih =>
    intro i h
    by_cases hc : w.connectedAt i
    · simp [loopClassify, hc] at h
    · by_cases hr : w.runningAt i
      · simp only [loopClassify, hc, hr, if_false, if_true] at h
        obtain ⟨j, h1, h2, h3⟩ := ih (i+1) h
        exact ⟨j, by omega, by omega, h3⟩
      · exact ⟨i, le_refl i, by omega, by simpa using hr⟩

/-- A `timedOutDead` classification means the final liveness query (index
start + fuel) observed the process dead. -/
theorem loopClassify_timedOutDead (w : LaunchWorld) :
    ∀ fuel i, loopClassify w i fuel = LoopOutcome.timedOutDead →
      w.runningAt (i + fuel) = false := by
  intro fuel
  induction fuel with
  | zero =>
    intro i h
    by_cases hr : w.runningAt i
    · simp [loopClassify, hr] at h
    · simpa using hr
  | succ n ih =>
    intro i h
    by_cases hc : w.connectedAt i
    · simp [loopClassify, hc] at h
    · by_cases hr : w.runningAt i
      · simp only [loopClassify, hc, hr, if_false, if_true] at h
        have := ih (i+1) h
        have harith : i + 1 + n = i + (n + 1) := by omega
        rwa [harith] at this
      · simp [loopClassify, hc, hr] at h

/-- A non-strict kill never raises, whatever the state and liveness. -/
theorem kill_nonstrict_err_none (st : RpcState) (rn : Bool) :
    (kill st rn false).err = none := by
  cases hp : st.process with
  | none => simp [kill, hp]
  | some p => by_cases hr : rn <;> simp [kill, hp, hr]

/-- `find?` is unchanged by dropping elements on which the predicate is
false anyway. -/
theorem find?_filter_drop {α : Type} (p keep : α → Bool) :
    ∀ l : List α, (∀ a ∈ l, keep a = false → p a = false) →
      (l.filter keep).find? p = l.find? p := by
  intro l
  induction l with
  | nil => intro _; rfl
  | cons a t ih =>
    intro h
    have ht : ∀ b ∈ t, keep b = false → p b = false :=
      fun b hb => h b (List.mem_cons_of_mem a hb)
    by_cases hk : keep a
    · by_cases hp : p a <;>
        simp [List.filter_cons, hk, List.find?_cons, hp, ih ht]
    · have hpa : p a = false := h a (List.mem_cons_self a t) (by simpa using hk)
      simp [List.filter_cons, hk, List.find?_cons, hpa, ih ht]

/-- Claim C1, counterexample to the claim as stated: launching against a
world in which the spawned process exits before ever connecting raises
`RPCProcessError`, but it is false that the handle is cleared and the chain
marked disconnected — `kill(False)` no-ops because `is_active` already
reports the dead process as inactive. -/
theorem claim1_counterexample :
    ¬ ((launch initState false "ganache-cli" wDeadStart).state.process = none ∧
       Event.chainDisconnected ∈ (launch initState false "ganache-cli" wDeadStart).events) := by
  decide

/-- Claim C1, amended: when the connectivity poll observes that the launched
process has exited, `launch` invokes `kill` non-strictly, which is a no-op
because the dead process makes `is_active` false; so no child is killed, the
handle remains stored, and the chain is never notified of disconnection —
`RPCProcessError(cmd, endpoint)` is then raised with the handle still set
(the session is nevertheless observationally inactive, the process being
dead). -/
theorem claim1_amended (st : RpcState) (rn : Bool) (cmd : String) (w : LaunchWorld)
    (uri : String) (h : is_active st rn = false) (hprov : w.provider = some uri)
    (hdied : loopClassify w 0 100 = LoopOutcome.died) :
    launch st rn cmd w =
      ⟨some (RpcErr.rpcProcessError cmd (some uri)),
        ⟨some w.spawned, selectLaunchBackend st.backend cmd⟩, []⟩ := by
  rw [launch_provider_spec st rn cmd w uri h hprov, hdied]

/-- Claim C1, witness: the amended theorem at a concrete world whose process
is dead from the first poll. -/
theorem claim1_witness :
    launch initState false "ganache-cli" wDeadStart =
      ⟨some (RpcErr.rpcProcessError "ganache-cli" (some "http://127.0.0.1:8545")),
        ⟨some wDeadStart.spawned, selectLaunchBackend initState.backend "ganache-cli"⟩, []⟩ :=
  claim1_amended initState false "ganache-cli" wDeadStart "http://127.0.0.1:8545"
    rfl rfl (by decide)

/-- Claim C3, counterexample to the claim as stated: when the poll exhausts
its 100 iterations with the process still alive, the raised
`RPCConnectionError` carries `None` as process info, not the info of the
killed process, because `kill` cleared `self.process` before the raise. -/
theorem claim3_counterexample :
    (launch initState false "ganache-cli" wNeverConnect).err =
      some (RpcErr.rpcConnectionError "ganache-cli" none (some "http://127.0.0.1:8545")) ∧
    (launch initState false "ganache-cli" wNeverConnect).err ≠
      some (RpcErr.rpcConnectionError "ganache-cli" (some wNeverConnect.spawned)
        (some "http://127.0.0.1:8545")) := by
  decide

/-- Claim C3, amended: if the poll exhausts all 100 iterations without the
client connecting and the process is still alive, `launch` kills the process
before signalling (children killed, main process killed and waited, handle
cleared, chain disconnected) and raises `RPCConnectionError` carrying the
launch command, the already-cleared handle (`None`), and the endpoint
URI. -/
theorem claim3_amended (st : RpcState) (rn : Bool) (cmd : String) (w : LaunchWorld)
    (uri : String) (h : is_active st rn = false) (hprov : w.provider = some uri)
    (htim : loopClassify w 0 100 = LoopOutcome.timedOutAlive) :
    launch st rn cmd w =
      ⟨some (RpcErr.rpcConnectionError cmd none (some uri)),
        ⟨none, selectLaunchBackend st.backend cmd⟩, killEvents w.spawned⟩ := by
  rw [launch_provider_spec st rn cmd w uri h hprov, htim]

/-- Claim C3, witness: the amended theorem at a concrete world that stays
alive but never connects. -/
theorem claim3_witness :
    launch initState false "ganache-cli" wNeverConnect =
      ⟨some (RpcErr.rpcConnectionError "ganache-cli" none (some "http://127.0.0.1:8545")),
        ⟨none, selectLaunchBackend initState.backend "ganache-cli"⟩, killEvents wNeverConnect.spawned⟩ :=
  claim3_amended initState false "ganache-cli" wNeverConnect "http://127.0.0.1:8545"
    rfl rfl (by decide)

/-- Claim C10: when `launch` is called with no web3 provider configured, the
backend process is spawned and the handle stored before the provider check,
the chain is notified of disconnection, and the call returns without error;
immediately afterwards the session is active (the spawned process is
running), despite the disconnect notification. -/
theorem claim10_launch_no_provider (st : RpcState) (rn : Bool) (cmd : String)
    (w : LaunchWorld) (h : is_active st rn = false) (hprov : w.provider = none) :
    launch st rn cmd w =
      ⟨none, ⟨some w.spawned, selectLaunchBackend st.backend cmd⟩, [Event.chainDisconnected]⟩ ∧
    (w.runningAfter = true →
      is_active (launch st rn cmd w).state w.runningAfter = true) := by
  have hs := launch_noProvider_spec st rn cmd w h hprov
  refine ⟨hs, fun hra => ?_⟩
  rw [hs]
  simp [is_active, hra]

/-- Claim C10, witness: no-provider launch at a concrete world, after which
the session reports active. -/
theorem claim10_witness :
    launch initState false "ganache-cli" wNoProvider =
      ⟨none, ⟨some wNoProvider.spawned, selectLaunchBackend initState.backend "ganache-cli"⟩,
        [Event.chainDisconnected]⟩ ∧
    is_active (launch initState false "ganache-cli" wNoProvider).state wNoProvider.runningAfter
      = true :=
  ⟨(claim10_launch_no_provider initState false "ganache-cli" wNoProvider rfl rfl).1,
   (claim10_launch_no_provider initState false "ganache-cli" wNoProvider rfl rfl).2 rfl⟩

/-- Claim C2, counterexample to the claim as stated: the backend selected by
a previous launch survives; after launching a geth session, killing it, and
launching a command that matches no known key, the selected adapter is geth,
not the default ganache adapter. -/
theorem claim2_counterexample :
    (∀ kv ∈ LAUNCH_BACKENDS, startsLower "mynode --dev" kv.1 = false) ∧
    (runOps initState
      [Op.launchOp false "geth --dev" wNoProvider,
       Op.killOp true false,
       Op.launchOp false "mynode --dev" wNoProvider]).1.backend = Backend.geth ∧
    (runOps initState
      [Op.launchOp false "geth --dev" wNoProvider,
       Op.killOp true false,
       Op.launchOp false "mynode --dev" wNoProvider]).1.backend ≠ Backend.ganache := by
  decide

/-- Claim C2, amended: the selector matches the known keys ganache, ethnode,
geth case-insensitively against the start of the command, first match
winning in the dict's fixed iteration order; a command matching no key
leaves the currently selected adapter unchanged (which is the default
ganache adapter only if no earlier launch changed it).  `launch` always
stores the selector's choice as the session backend. -/
theorem claim2_amended :
    (∀ (cur : Backend) (cmd : String),
      selectLaunchBackend cur cmd =
        if startsLower cmd "ganache" then Backend.ganache
        else if startsLower cmd "ethnode" then Backend.geth
        else if startsLower cmd "geth" then Backend.geth
        else cur) ∧
    (∀ (st : RpcState) (rn : Bool) (cmd : String) (w : LaunchWorld),
      is_active st rn = false →
      (launch st rn cmd w).state.backend = selectLaunchBackend st.backend cmd) := by
  constructor
  · intro cur cmd
    by_cases h1 : startsLower cmd "ganache" <;>
      by_cases h2 : startsLower cmd "ethnode" <;>
        by_cases h3 : startsLower cmd "geth" <;>
          simp [selectLaunchBackend, LAUNCH_BACKENDS, List.find?, h1, h2, h3]
  · intro st rn cmd w h
    cases hprov : w.provider with
    | none => rw [launch_noProvider_spec st rn cmd w h hprov]
    | some uri =>
      rw [launch_provider_spec st rn cmd w uri h hprov]
      cases loopClassify w 0 100 <;> rfl

/-- Claim C2, witness: the launch clause of the amended theorem at a state
whose current backend is geth and a command matching no key. -/
theorem claim2_witness :
    (launch ⟨none, Backend.geth⟩ false "mynode --dev" wNoProvider).state.backend =
      selectLaunchBackend Backend.geth "mynode --dev" :=
  claim2_amended.2 ⟨none, Backend.geth⟩ false "mynode --dev" wNoProvider rfl

/-- Claim C4: `kill` raises `NotActiveError` when inactive and strict, is a
no-op when inactive and non-strict, never raises non-strictly (hence a
second non-strict kill never raises); when active it kills every enumerated
child that is still present (a vanished child is skipped and prevents
nothing), then kills and waits the main process, clears the handle, and
notifies the chain of disconnection. -/
theorem claim4_kill_contract :
    (∀ (st : RpcState) (rn : Bool), is_active st rn = false →
      kill st rn true = ⟨some RpcErr.notActive, st, []⟩) ∧
    (∀ (st : RpcState) (rn : Bool), is_active st rn = false →
      kill st rn false = ⟨none, st, []⟩) ∧
    (∀ (st : RpcState) (rn : Bool), (kill st rn false).err = none) ∧
    (∀ (st : RpcState) (rn rn' : Bool),
      (kill (kill st rn false).state rn' false).err = none) ∧
    (∀ (st : RpcState) (p : ProcHandle) (exc : Bool), st.process = some p →
      kill st true exc = ⟨none, ⟨none, st.backend⟩, killEvents p⟩) ∧
    (∀ cs : List ChildProc,
      killChildren cs = (cs.filter (fun c => !c.gone)).map (fun c => Event.childKilled c.pid)) ∧
    (∀ (p : ProcHandle) (c : ChildProc), c ∈ p.children → c.gone = false →
      Event.childKilled c.pid ∈ killEvents p) ∧
    (∀ p : ProcHandle, Event.mainKilled p.pid ∈ killEvents p ∧
      Event.mainWaited p.pid ∈ killEvents p ∧ Event.chainDisconnected ∈ killEvents p) := by
  refine ⟨?_, ?_, ?_, ?_, ?_, killChildren_eq_filter, ?_, ?_⟩
  · intro st rn h
    cases hp : st.process with
    | none => simp [kill, hp]
    | some p =>
      have hr : rn = false := by simpa [is_active, hp] using h
      simp [kill, hp, hr]
  · intro st rn h
    cases hp : st.process with
    | none => simp [kill, hp]
    | some p =>
      have hr : rn = false := by simpa [is_active, hp] using h
      simp [kill, hp, hr]
  · intro st rn
    exact kill_nonstrict_err_none st rn
  · intro st rn rn'
    exact kill_nonstrict_err_none (kill st rn false).state rn'
  · intro st p exc hp
    simp [kill, hp]
  · intro p c hc hg
    refine List.mem_append_left _ ?_
    rw [killChildren_eq_filter]
    exact List.mem_map.mpr ⟨c, List.mem_filter.mpr ⟨hc, by simp [hg]⟩, rfl⟩
  · intro p
    refine ⟨?_, ?_, ?_⟩ <;> exact List.mem_append_right _ (by simp)

/-- Claim C4, witness: a strict kill on the fresh inactive state raises; an
active kill with one vanished child among three still kills the other two
children and the parent, clears the handle, and disconnects the chain. -/
theorem claim4_witness :
    kill initState false true = ⟨some RpcErr.notActive, initState, []⟩ ∧
    kill activeState true false = ⟨none, ⟨none, Backend.ganache⟩, killEvents proc7⟩ ∧
    Event.childKilled 5 ∈ killEvents proc7 ∧
    Event.mainKilled 7 ∈ killEvents proc7 :=
  ⟨claim4_kill_contract.1 initState false rfl,
   claim4_kill_contract.2.2.2.2.1 activeState proc7 false rfl,
   claim4_kill_contract.2.2.2.2.2.2.1 proc7 child5 (by decide) rfl,
   (claim4_kill_contract.2.2.2.2.2.2.2 proc7).1⟩

/-- Claim C5: `attach` raises the no-port error for every URI lacking a
port, and raises `ProcessLookupError` when no OS process is bound to the
resolved target address (no process socket matches and no system-wide TCP
connection matches); in both failure cases the state is returned unchanged,
so a previously inactive session stays inactive with no handle stored. -/
theorem claim5_attach_failures :
    (∀ (st : RpcState) (rn : Bool) (w : AttachWorld) (host : String),
      st.process = none →
      attach st rn (Laddr.uriAddr host none) w = ⟨some RpcErr.noPortGiven, st, []⟩) ∧
    (∀ (st : RpcState) (rn : Bool) (w : AttachWorld) (la : Laddr) (hp : String × Nat),
      st.process = none →
      normalizeLaddr la = some hp →
      (∀ p ∈ w.finder.procIter,
        _check_proc_connections p ⟨w.resolveHost hp.1, hp.2⟩ = false) →
      (∀ c ∈ w.finder.netConns,
        _check_net_connections c ⟨w.resolveHost hp.1, hp.2⟩ = false) →
      attach st rn la w = ⟨some RpcErr.processLookupError, st, []⟩) := by
  constructor
  · intro st rn w host hst
    simp [attach, is_active, hst, normalizeLaddr, portTruthy]
  · intro st rn w la hp hst hnorm hproc hconn
    have hfind : _find_rpc_process_pid w.finder ⟨w.resolveHost hp.1, hp.2⟩ =
        Except.error RpcErr.processLookupError := by
      have h1 : w.finder.procIter.find?
          (fun p => _check_proc_connections p ⟨w.resolveHost hp.1, hp.2⟩) = none :=
        List.find?_eq_none.mpr (fun p hmem => by simp [hproc p hmem])
      have h2 : w.finder.netConns.find?
          (fun c => _check_net_connections c ⟨w.resolveHost hp.1, hp.2⟩) = none :=
        List.find?_eq_none.mpr (fun c hmem => by simp [hconn c hmem])
      simp [_find_rpc_process_pid, h1, h2]
    simp [attach, is_active, hst, hnorm, hfind]

/-- Claim C5, witness: attach with a port-less URI and attach against empty
socket tables, both from the fresh inactive state. -/
theorem claim5_witness :
    attach initState false (Laddr.uriAddr "127.0.0.1" none) emptyAttachWorld =
      ⟨some RpcErr.noPortGiven, initState, []⟩ ∧
    attach initState false (Laddr.pairAddr "127.0.0.1" 8545) emptyAttachWorld =
      ⟨some RpcErr.processLookupError, initState, []⟩ :=
  ⟨claim5_attach_failures.1 initState false emptyAttachWorld "127.0.0.1" rfl,
   claim5_attach_failures.2 initState false emptyAttachWorld
     (Laddr.pairAddr "127.0.0.1" 8545) ("127.0.0.1", 8545) rfl rfl
     (fun _ hp => nomatch hp) (fun _ hc => nomatch hc)⟩

/-- Claim C6, counterexample to the claim as stated: a launch in the
degenerate no-provider mode returns with the session active even though no
connectivity poll ever succeeded, so "is_active iff the poll succeeded"
fails for that invocation of launch. -/
theorem claim6_counterexample :
    ¬ (is_active (launch initState false "ganache-cli" wNoProvider).state
        wNoProvider.runningAfter = true ↔ pollSucceeded wNoProvider = true) := by
  decide

/-- Claim C6, amended: for every launch invoked on a session with no stored
handle and with a web3 provider configured, `is_active` queried immediately
after `launch` returns is true iff the connectivity poll succeeded before
the timeout.  The hypotheses record two facts about real processes: death is
absorbing (a process observed dead during the poll is still dead at the
later query), and a process whose RPC endpoint just answered is running. -/
theorem claim6_amended (st : RpcState) (rn : Bool) (cmd : String) (w : LaunchWorld)
    (uri : String) (hst : st.process = none) (hprov : w.provider = some uri)
    (habs : ∀ i, i ≤ 100 → w.runningAt i = false → w.runningAfter = false)
    (hcons : loopClassify w 0 100 = LoopOutcome.connected → w.runningAfter = true) :
    is_active (launch st rn cmd w).state w.runningAfter = pollSucceeded w := by
  have hact : is_active st rn = false := by simp [is_active, hst]
  rw [launch_provider_spec st rn cmd w uri hact hprov]
  cases hclass : loopClassify w 0 100 with
  | connected =>
    simp [is_active, pollSucceeded, hprov, hclass, hcons hclass]
  | died =>
    obtain ⟨j, hj1, hj2, hj3⟩ := loopClassify_died w 100 0 hclass
    have hra : w.runningAfter = false := habs j (by omega) hj3
    simp [is_active, pollSucceeded, hprov, hclass, hra]
  | timedOutAlive =>
    simp [is_active, pollSucceeded, hprov, hclass]
  | timedOutDead =>
    have h100 : w.runningAt 100 = false := by
      simpa using loopClassify_timedOutDead w 100 0 hclass
    have hra : w.runningAfter = false := habs 100 (by omega) h100
    simp [is_active, pollSucceeded, hprov, hclass, hra]

/-- Claim C6, witness: the amended theorem at a world that connects on the
first poll. -/
theorem claim6_witness :
    is_active (launch initState false "ganache-cli" wConnectNow).state wConnectNow.runningAfter
      = pollSucceeded wConnectNow :=
  claim6_amended initState false "ganache-cli" wConnectNow "http://127.0.0.1:8545"
    rfl rfl (fun _ _ h => Bool.noConfusion h) (fun _ => rfl)

/-- Claim C8: the finder's first strategy scans processes for a socket whose
local address equals the target exactly, silently skipping uninspectable
processes (their check is false, and removing them from the scan changes
nothing); the match predicate of the fallback requires an owning pid and a
local-or-remote address match, and the first matching connection's pid is
returned; when nothing matches in either strategy the finder fails with
`ProcessLookupError`. -/
theorem claim8_finder_contract (f : FinderWorld) (a : Addr) :
    (∀ p, _check_proc_connections p a = true ↔
      ∃ ls, p.inspect = InspectResult.conns ls ∧ a ∈ ls) ∧
    (∀ p, specUninspectable p = true → _check_proc_connections p a = false) ∧
    (_find_rpc_process_pid ⟨f.procIter.filter (fun p => !specUninspectable p), f.netConns⟩ a
      = _find_rpc_process_pid f a) ∧
    (∀ c, _check_net_connections c a = true ↔
      c.pid.isSome ∧ (c.laddr = a ∨ c.raddr = some a)) ∧
    (∀ p, f.procIter.find? (fun q => _check_proc_connections q a) = some p →
      _find_rpc_process_pid f a = Except.ok p.pid) ∧
    (∀ c, f.procIter.find? (fun q => _check_proc_connections q a) = none →
      f.netConns.find? (fun d => _check_net_connections d a) = some c →
      ∃ pid, c.pid = some pid ∧ _find_rpc_process_pid f a = Except.ok pid) ∧
    ((∀ p ∈ f.procIter, _check_proc_connections p a = false) →
     (∀ c ∈ f.netConns, _check_net_connections c a = false) →
     _find_rpc_process_pid f a = Except.error RpcErr.processLookupError) := by
  refine ⟨?_, ?_, ?_, ?_, ?_, ?_, ?_⟩
  · intro p
    cases hi : p.inspect <;> simp [_check_proc_connections, hi]
  · intro p hu
    cases hi : p.inspect
    · simp [specUninspectable, hi] at hu
    · simp [_check_proc_connections, hi]
    · simp [_check_proc_connections, hi]
    · simp [_check_proc_connections, hi]
  · have hdrop := find?_filter_drop (fun q => _check_proc_connections q a)
      (fun p => !specUninspectable p) f.procIter
      (fun p _ hk => by
        cases hi : p.inspect <;> simp [specUninspectable, hi] at hk <;>
          simp [_check_proc_connections, hi])
    simp only [_find_rpc_process_pid, hdrop]
  · intro c
    cases hpid : c.pid with
    | none => simp [_check_net_connections, hpid]
    | some pid =>
      by_cases hl : c.laddr = a
      · simp [_check_net_connections, hpid, hl]
      · by_cases hr : c.raddr = some a <;> simp [_check_net_connections, hpid, hl, hr]
  · intro p hfind
    simp [_find_rpc_process_pid, hfind]
  · intro c hnone hfind
    have hpred : _check_net_connections c a = true :=
      @List.find?_some _ (fun d => _check_net_connections d a) c f.netConns hfind
    cases hpid : c.pid with
    | none => simp [_check_net_connections, hpid] at hpred
    | some pid =>
      refine ⟨pid, rfl, ?_⟩
      simp [_find_rpc_process_pid, hnone, hfind, hpid]
  · intro hproc hconn
    have h1 : f.procIter.find? (fun q => _check_proc_connections q a) = none :=
      List.find?_eq_none.mpr (fun p hmem => by simp [hproc p hmem])
    have h2 : f.netConns.find? (fun d => _check_net_connections d a) = none :=
      List.find?_eq_none.mpr (fun c hmem => by simp [hconn c hmem])
    simp [_find_rpc_process_pid, h1, h2]

/-- Claim C8, witness: one uninspectable process is skipped, and the
fallback returns pid 42 from the first matching system-wide connection. -/
theorem claim8_witness :
    ∃ pid, connA.pid = some pid ∧
      _find_rpc_process_pid finder1 ⟨"127.0.0.1", 8545⟩ = Except.ok pid :=
  (claim8_finder_contract finder1 ⟨"127.0.0.1", 8545⟩).2.2.2.2.2.1 connA
    (by decide) (by decide)

/-- Claim C9, counterexample to the claim as stated: with a launched process
owning captured streams, an explicit kill followed by the exit-time cleanup
closes the stream handles zero times, not exactly once — `kill` never closes
them, and `_at_exit` returns early because the session is no longer
active. -/
theorem claim9_counterexample :
    proc7.hasStdout = true ∧ proc7.parentIsSelf = true ∧
    ¬ (countEvt ((kill activeState true false).events ++
        (_at_exit (kill activeState true false).state true).events) Event.stdoutClosed = 1) := by
  decide

/-- Claim C9, amended: stream handles are closed at most once, and only by
the exit-time cleanup: `kill` never emits a close; `_at_exit` on an active
session whose process is our own child closes each present stream exactly
once and tears the session down, so a subsequent kill adds no close; in the
opposite order (explicit kill first, then exit-time cleanup) the streams are
closed zero times. -/
theorem claim9_amended :
    (∀ (st : RpcState) (rn exc : Bool),
      countEvt (kill st rn exc).events Event.stdoutClosed = 0 ∧
      countEvt (kill st rn exc).events Event.stderrClosed = 0) ∧
    (∀ (st : RpcState) (p : ProcHandle) (rn' : Bool), st.process = some p →
      p.parentIsSelf = true →
      countEvt ((_at_exit st true).events ++ (kill (_at_exit st true).state rn' false).events)
          Event.stdoutClosed = (if p.hasStdout then 1 else 0) ∧
      countEvt ((_at_exit st true).events ++ (kill (_at_exit st true).state rn' false).events)
          Event.stderrClosed = (if p.hasStderr then 1 else 0)) ∧
    (∀ (st : RpcState) (p : ProcHandle) (rn' : Bool), st.process = some p →
      countEvt ((kill st true false).events ++ (_at_exit (kill st true false).state rn').events)
          Event.stdoutClosed = 0 ∧
      countEvt ((kill st true false).events ++ (_at_exit (kill st true false).state rn').events)
          Event.stderrClosed = 0) := by
  have hkill0 : ∀ (st : RpcState) (rn exc : Bool),
      countEvt (kill st rn exc).events Event.stdoutClosed = 0 ∧
      countEvt (kill st rn exc).events Event.stderrClosed = 0 := by
    intro st rn exc
    cases hp : st.process with
    | none => by_cases he : exc <;> simp [kill, hp, he, countEvt]
    | some p =>
      by_cases hr : rn
      · simp [kill, hp, hr, countEvt_killEvents_stdout, countEvt_killEvents_stderr]
      · by_cases he : exc <;> simp [kill, hp, hr, he, countEvt]
  refine ⟨hkill0, ?_, ?_⟩
  · intro st p rn' hp hpar
    have hae : _at_exit st true =
        ⟨none, { st with process := none },
          ((if p.hasStdout then [Event.stdoutClosed] else []) ++
            (if p.hasStderr then [Event.stderrClosed] else [])) ++ killEvents p⟩ := by
      simp [_at_exit, hp, hpar, kill]
    rw [hae]
    have hk2 : ∀ e, countEvt (kill ({ st with process := none } : RpcState) rn' false).events e
        = 0 := by
      intro e
      by_cases hr : rn' <;> simp [kill, hr, countEvt]
    constructor <;>
      · rw [countEvt_append, countEvt_append, countEvt_append, hk2]
        by_cases h1 : p.hasStdout <;> by_cases h2 : p.hasStderr <;>
          simp [h1, h2, countEvt, countEvt_killEvents_stdout, countEvt_killEvents_stderr]
  · intro st p rn' hp
    have hk : kill st true false = ⟨none, { st with process := none }, killEvents p⟩ := by
      simp [kill, hp]
    rw [hk]
    have hae : _at_exit ({ st with process := none } : RpcState) rn' =
        ⟨none, { st with process := none }, []⟩ := by
      simp [_at_exit]
    rw [hae]
    constructor <;>
      simp [countEvt_append, countEvt, countEvt_killEvents_stdout, countEvt_killEvents_stderr]

/-- Claim C9, witness: exit-time cleanup on the active fixture session
closes each stream exactly once, and the follow-up kill adds nothing. -/
theorem claim9_witness :
    countEvt ((_at_exit activeState true).events ++
        (kill (_at_exit activeState true).state false false).events) Event.stdoutClosed =
      (if proc7.hasStdout then 1 else 0) :=
  (claim9_amended.2.1 activeState proc7 false rfl rfl).1

/-- Per-operation notification counts: one operation emits exactly one
connect notification iff it performs a successful connect, and exactly one
disconnect notification iff it performs a disconnect. -/
theorem step_notification_counts (st : RpcState) (op : Op) :
    countEvt (step st op).events Event.chainConnected = (if connects st op then 1 else 0) ∧
    countEvt (step st op).events Event.chainDisconnected =
      (if disconnects st op then 1 else 0) := by
  cases op with
  | killOp rn exc =>
    cases hp : st.process with
    | none =>
      by_cases he : exc <;>
        simp [step, kill, hp, he, connects, disconnects, is_active, countEvt]
    | some p =>
      by_cases hr : rn
      · simp [step, kill, hp, hr, connects, disconnects, is_active,
          countEvt_killEvents_connected, countEvt_killEvents_disconnected]
      · by_cases he : exc <;>
          simp [step, kill, hp, hr, he, connects, disconnects, is_active, countEvt]
  | attachOp rn laddr w =>
    cases ha : is_active st rn with
    | true => simp [step, attach, ha, connects, disconnects, countEvt]
    | false =>
      cases hn : normalizeLaddr laddr with
      | none => simp [step, attach, ha, hn, connects, disconnects, countEvt]
      | some hp =>
        cases hf : _find_rpc_process_pid w.finder ⟨w.resolveHost hp.1, hp.2⟩ with
        | error e => simp [step, attach, ha, hn, hf, connects, disconnects, countEvt]
        | ok pid => simp [step, attach, ha, hn, hf, connects, disconnects, countEvt]
  | launchOp rn cmd w =>
    cases ha : is_active st rn with
    | true => simp [step, launch, ha, connects, disconnects, countEvt]
    | false =>
      cases hprov : w.provider with
      | none =>
        have hs := launch_noProvider_spec st rn cmd w ha hprov
        simp only [step] at *
        rw [hs]
        simp [connects, disconnects, ha, hprov, countEvt]
      | some uri =>
        have hs := launch_provider_spec st rn cmd w uri ha hprov
        simp only [step] at *
        rw [hs]
        cases hclass : loopClassify w 0 100 <;>
          simp [connects, disconnects, ha, hprov, hclass, countEvt,
            countEvt_killEvents_connected, countEvt_killEvents_disconnected]

/-- Claim C7: across every sequence of supervisor operations, the chain
collaborator receives exactly one connect notification per operation that
performs a successful connect (a launch whose poll succeeds, or a
successful attach) and exactly one disconnect notification per operation
that performs a disconnect (a kill tearing down an active session —
including the kill a timed-out launch performs internally — or a launch in
the degenerate no-provider mode), and no notification otherwise. -/
theorem claim7_notification_discipline (st : RpcState) (ops : List Op) :
    countEvt (runOps st ops).2 Event.chainConnected = expectedConnects st ops ∧
    countEvt (runOps st ops).2 Event.chainDisconnected = expectedDisconnects st ops := by
  induction ops generalizing st with
  | nil => simp [runOps, expectedConnects, expectedDisconnects, countEvt]
  | cons op rest ih =>
    have hstep := step_notification_counts st op
    simp only [runOps, expectedConnects, expectedDisconnects, countEvt_append]
    exact ⟨by rw [hstep.1, (ih (step st op).state).1],
      by rw [hstep.2, (ih (step st op).state).2]⟩

end BrownieRpc
